import Mathlib

/-
Verification of the awesome-list creation and editing workflow
(src/src/agent.py, src/src/config.py) against its specification.

The filesystem is modelled as a map from path strings to optional file
contents together with a per-path writability flag; the completion
provider is modelled as a function from (model, systemPrompt, userMessage)
to a fallible result. Python string truthiness and str.replace are
modelled faithfully for the non-empty patterns used by the code.
-/

namespace LazyAwesome

/-- Error kinds raised by the workflow, one constructor per raise site
of the source (the spec names them ConfigurationError, NotFoundError,
ProviderError and IOError). -/
inductive Err where
  | configurationError (msg : String)
  | notFoundError (msg : String)
  | providerError (msg : String)
  | ioError (msg : String)
deriving DecidableEq

/-- Filesystem model: file contents by path, plus which paths the
underlying storage will accept a write to. -/
structure Fs where
  files : String → Option String
  writable : String → Bool

/-- config.py read_file_content: open the file and return its content;
a missing file raises (FileNotFoundError, the NotFoundError of the spec). -/
def read_file_content (fs : Fs) (path : String) : Except Err String :=
  match fs.files path with
  | some c => Except.ok c
  | none => Except.error (Err.notFoundError path)

/-- config.py write_file_content: create parent directories and overwrite
the file with the content; unwritable storage raises (the IOError of the
spec) and leaves the contents unchanged. -/
def write_file_content (fs : Fs) (path content : String) : Except Err Fs :=
  if fs.writable path then
    Except.ok { fs with files := fun q => if q = path then some content else fs.files q }
  else
    Except.error (Err.ioError path)

/-- config.py EXAMPLES_DIR, relative to the repository base directory. -/
def EXAMPLES_DIR : String := "development/examples"

/-- config.py LIST_CREATOR_PROMPT_PATH. -/
def LIST_CREATOR_PROMPT_PATH : String := "development/the-crew/system-prompts/list-creator.md"

/-- config.py LIST_EDITOR_PROMPT_PATH. -/
def LIST_EDITOR_PROMPT_PATH : String := "development/the-crew/system-prompts/list-editor.md"

/-- config.py LIST_PATH, the current-list slot. -/
def LIST_PATH : String := "demo-list/awesome-list.md"

/-- config.py LIST_STARTER, the starter snapshot slot. -/
def LIST_STARTER : String := "demo-list/starter.md"

/-- config.py LIST_DRAFT, the draft-edit snapshot slot. -/
def LIST_DRAFT : String := "demo-list/draft-edit.md"

/-- config.py DEFAULT_EXAMPLE_PATH. -/
def DEFAULT_EXAMPLE_PATH : String := EXAMPLES_DIR ++ "/awesome-android.md"

/-- config.py DEFAULT_MODEL default value. -/
def DEFAULT_MODEL : String := "gpt-4"

/-- Python truthiness of an optional string: None and the empty string
are falsy, every other string is truthy. -/
def truthy : Option String → Bool
  | none => false
  | some s => !s.isEmpty

/-- The two provider endpoints the OpenAI client can be pointed at. -/
inductive Client where
  | openrouter (key : String)
  | openai (key : String)
deriving DecidableEq

/-- The two credential values read from the environment by config.py. -/
structure Env where
  OPENROUTER_API_KEY : Option String
  OPENAI_API_KEY : Option String

/-- agent.py AwesomeListAgent._get_client: OpenRouter if its key is
truthy, else OpenAI if its key is truthy, else raise (the
ConfigurationError of the spec). -/
def get_client (env : Env) : Except Err Client :=
  if truthy env.OPENROUTER_API_KEY then
    Except.ok (Client.openrouter (env.OPENROUTER_API_KEY.getD ""))
  else if truthy env.OPENAI_API_KEY then
    Except.ok (Client.openai (env.OPENAI_API_KEY.getD ""))
  else
    Except.error (Err.configurationError "No API key provided for OpenAI or OpenRouter")

/-- agent.py AwesomeListAgent state after a successful constructor run. -/
structure Agent where
  client : Client
  model : String
  creator_prompt : String
  editor_prompt : String

/-- agent.py AwesomeListAgent.__init__: pick the model, resolve the
client from the credentials, then load the two system prompt templates. -/
def Agent.mkInit (env : Env) (fs : Fs) (model : Option String) : Except Err Agent :=
  match get_client env with
  | Except.error e => Except.error e
  | Except.ok client =>
    match read_file_content fs LIST_CREATOR_PROMPT_PATH with
    | Except.error e => Except.error e
    | Except.ok creator =>
      match read_file_content fs LIST_EDITOR_PROMPT_PATH with
      | Except.error e => Except.error e
      | Except.ok editor =>
        Except.ok { client := client,
                    model := if truthy model then model.getD "" else DEFAULT_MODEL,
                    creator_prompt := creator,
                    editor_prompt := editor }

/-- The external completion provider: model name, system prompt and user
message to a fallible text result. -/
abbrev Provider := String → String → String → Except Err String

/-- One scan step of Python str.replace for a non-empty pattern: when the
pattern matches at the current position, emit the replacement and skip
the length of the pattern; otherwise keep the character and move on.
The skip counter carries how many characters of a matched pattern are
still to be consumed. -/
def replaceAux (pat rep : List Char) : List Char → Nat → List Char
  | [], _ => []
  | _ :: rest, Nat.succ skip => replaceAux pat rep rest skip
  | c :: rest, 0 =>
    if pat.isPrefixOf (c :: rest) && !pat.isEmpty then
      rep ++ replaceAux pat rep rest (pat.length - 1)
    else
      c :: replaceAux pat rep rest 0

/-- Python str.replace for a non-empty pattern: replace every
non-overlapping occurrence of pat in s by rep, scanning left to right.
The workflow only ever calls it with the two fixed placeholder tokens,
which are non-empty. -/
def replaceList (pat rep s : List Char) : List Char :=
  replaceAux pat rep s 0

/-- String-level replacement, as used on agent.py lines 90 and 130. -/
def pyReplace (s pat rep : String) : String :=
  String.mk (replaceList pat.data rep.data s.data)

/-- Substring occurrence test, Python in-operator semantics. -/
def containsSub (pat : List Char) : List Char → Bool
  | [] => pat.isEmpty
  | c :: rest => pat.isPrefixOf (c :: rest) || containsSub pat rest

/-- String-level substring test. -/
def strContains (s pat : String) : Bool :=
  containsSub pat.data s.data

/-- The creation placeholder token of agent.py line 90. -/
def exampleTok : String := "\x7b\x7bexample\x7d\x7d"

/-- The edit placeholder token of agent.py line 130. -/
def listTok : String := "\x7b\x7blistpath\x7d\x7d"

/-- agent.py line 90: build the creation system prompt by substituting
the example content into the creator template. -/
def buildCreationPrompt (creatorTemplate exampleContent : String) : String :=
  pyReplace creatorTemplate exampleTok exampleContent

/-- agent.py line 130: build the edit system prompt by substituting the
current list content into the editor template. -/
def buildEditPrompt (editorTemplate listContent : String) : String :=
  pyReplace editorTemplate listTok listContent

/-- agent.py create_list lines 79 to 84: resolve the example path, with
the Python truthiness check on the optional name and an existence check
when a name is given. -/
def resolve_example_path (fs : Fs) (example_name : Option String) : Except Err String :=
  if truthy example_name then
    if (fs.files (EXAMPLES_DIR ++ "/" ++ example_name.getD "" ++ ".md")).isSome then
      Except.ok (EXAMPLES_DIR ++ "/" ++ example_name.getD "" ++ ".md")
    else
      Except.error (Err.notFoundError ("Example \x27" ++ example_name.getD "" ++ "\x27 not found"))
  else
    Except.ok DEFAULT_EXAMPLE_PATH

/-- agent.py create_list: resolve the example, read it, substitute it
into the creator prompt, call the provider once, then write the result
to the starter slot and to the current-list slot and return it. The
third component counts provider invocations; on error the filesystem
reached so far and the count are returned with the error. -/
def create_list (ag : Agent) (provider : Provider) (fs : Fs)
    (user_input : String) (example_name : Option String) :
    Except Err String × Fs × Nat :=
  match resolve_example_path fs example_name with
  | Except.error e => (Except.error e, fs, 0)
  | Except.ok example_path =>
    match read_file_content fs example_path with
    | Except.error e => (Except.error e, fs, 0)
    | Except.ok example_content =>
      match provider ag.model (buildCreationPrompt ag.creator_prompt example_content) user_input with
      | Except.error e => (Except.error e, fs, 1)
      | Except.ok content =>
        match write_file_content fs LIST_STARTER content with
        | Except.error e => (Except.error e, fs, 1)
        | Except.ok fs1 =>
          match write_file_content fs1 LIST_PATH content with
          | Except.error e => (Except.error e, fs1, 1)
          | Except.ok fs2 => (Except.ok content, fs2, 1)

/-- agent.py edit_list: default the list and draft paths with Python
or-semantics, read the current list, substitute it into the editor
prompt, call the provider once, then write the result to the draft slot
and to the current-list slot (the second write targets the LIST_PATH
constant, not the list_path parameter) and return it. -/
def edit_list (ag : Agent) (provider : Provider) (fs : Fs)
    (user_input : String) (list_path draft_path : Option String) :
    Except Err String × Fs × Nat :=
  match read_file_content fs (if truthy list_path then list_path.getD "" else LIST_PATH) with
  | Except.error e => (Except.error e, fs, 0)
  | Except.ok list_content =>
    match provider ag.model (buildEditPrompt ag.editor_prompt list_content) user_input with
    | Except.error e => (Except.error e, fs, 1)
    | Except.ok content =>
      match write_file_content fs (if truthy draft_path then draft_path.getD "" else LIST_DRAFT) content with
      | Except.error e => (Except.error e, fs, 1)
      | Except.ok fs1 =>
        match write_file_content fs1 LIST_PATH content with
        | Except.error e => (Except.error e, fs1, 1)
        | Except.ok fs2 => (Except.ok content, fs2, 1)

/-- The whole create workflow as the CLI drives it: construct the agent
(which resolves credentials before anything else), then run create_list. -/
def run_create (env : Env) (model : Option String) (provider : Provider) (fs : Fs)
    (user_input : String) (example_name : Option String) :
    Except Err String × Fs × Nat :=
  match Agent.mkInit env fs model with
  | Except.error e => (Except.error e, fs, 0)
  | Except.ok ag => create_list ag provider fs user_input example_name

/-- The whole edit workflow as the CLI drives it: construct the agent,
then run edit_list at the default paths. -/
def run_edit (env : Env) (model : Option String) (provider : Provider) (fs : Fs)
    (user_input : String) : Except Err String × Fs × Nat :=
  match Agent.mkInit env fs model with
  | Except.error e => (Except.error e, fs, 0)
  | Except.ok ag => edit_list ag provider fs user_input none none

/-- Skipping k characters before resuming the scan is dropping them. -/
theorem replaceAux_skip (pat rep : List Char) :
    ∀ (s : List Char) (k : Nat), replaceAux pat rep s k = replaceAux pat rep (s.drop k) 0 := by
  intro s
  induction s with
  | nil => intro k; cases k <;> rfl
  | cons c rest ih =>
    intro k
    cases k with
    | zero => rfl
    | succ k => simpa [replaceAux] using ih k

/-- Unfolding equation for the scan at a cons cell. -/
theorem replaceList_cons (pat rep : List Char) (c : Char) (rest : List Char) :
    replaceList pat rep (c :: rest) =
      if pat.isPrefixOf (c :: rest) && !pat.isEmpty then
        rep ++ replaceList pat rep (rest.drop (pat.length - 1))
      else
        c :: replaceList pat rep rest := by
  show replaceAux pat rep (c :: rest) 0 = _
  rw [replaceAux]
  split
  · rw [replaceAux_skip]
    rfl
  · rfl

/-- A pattern that occurs nowhere is never substituted: the scan returns
the text unchanged. -/
theorem replaceList_of_not_contains (pat rep : List Char) :
    ∀ (s : List Char), containsSub pat s = false → replaceList pat rep s = s := by
  intro s
  induction s with
  | nil => intro _; rfl
  | cons c rest ih =>
    intro h
    rw [containsSub] at h
    rw [Bool.or_eq_false_iff] at h
    rw [replaceList_cons, h.1]
    simp [ih h.2]

/-- A list is a prefix of itself followed by anything. -/
theorem isPrefixOf_append_self (l t : List Char) : l.isPrefixOf (l ++ t) = true := by
  induction l with
  | nil => simp [List.isPrefixOf]
  | cons a l ih => simp [List.isPrefixOf, ih]

/-- When the pattern occurs exactly once, the scan keeps the part before
the occurrence, substitutes the replacement for it, and keeps the part
after it, character for character. The first hypothesis says no
occurrence starts inside the prefix part, the second that none occurs in
the suffix part. -/
theorem replaceList_unique (pat rep : List Char) (hpat : pat.isEmpty = false) :
    ∀ (pre post : List Char),
      (∀ i, i < pre.length → pat.isPrefixOf ((pre ++ pat ++ post).drop i) = false) →
      containsSub pat post = false →
      replaceList pat rep (pre ++ pat ++ post) = pre ++ rep ++ post := by
  intro pre
  induction pre with
  | nil =>
    intro post _ hpost
    cases pat with
    | nil => simp at hpat
    | cons p0 pt =>
      simp only [List.nil_append, List.cons_append]
      rw [replaceList_cons]
      rw [show p0 :: (pt ++ post) = (p0 :: pt) ++ post from rfl]
      rw [isPrefixOf_append_self]
      simp only [hpat, Bool.not_false, Bool.and_true, if_true]
      have hdrop : (pt ++ post).drop ((p0 :: pt).length - 1) = post := by
        simp only [List.length_cons, Nat.add_sub_cancel]
        exact List.drop_left pt post
      rw [hdrop, replaceList_of_not_contains (p0 :: pt) rep post hpost]
  | cons a pre ih =>
    intro post hpre hpost
    have h0 : pat.isPrefixOf (a :: (pre ++ pat ++ post)) = false := by
      have := hpre 0 (by simp)
      simpa using this
    simp only [List.cons_append]
    rw [replaceList_cons, h0]
    have hpre1 : ∀ i, i < pre.length → pat.isPrefixOf ((pre ++ pat ++ post).drop i) = false := by
      intro i hi
      have := hpre (i + 1) (by simp; omega)
      simpa [List.drop_succ_cons] using this
    rw [ih post hpre1 hpost]
    simp

/-- The three slot paths and the two prompt paths are pairwise distinct. -/
theorem starter_ne_path : LIST_STARTER ≠ LIST_PATH := by decide

/-- The draft slot differs from the current-list slot. -/
theorem draft_ne_path : LIST_DRAFT ≠ LIST_PATH := by decide

/-- The draft slot differs from the starter slot. -/
theorem draft_ne_starter : LIST_DRAFT ≠ LIST_STARTER := by decide

/-- The starter slot differs from the draft slot. -/
theorem starter_ne_draft : LIST_STARTER ≠ LIST_DRAFT := by decide

/-- A successful write sets the written path to the new content. -/
theorem write_files_eq (fs : Fs) (p c : String) (fs1 : Fs)
    (h : write_file_content fs p c = Except.ok fs1) : fs1.files p = some c := by
  unfold write_file_content at h
  split at h
  · cases h
    simp
  · cases h

/-- A successful write leaves every other path unchanged. -/
theorem write_files_ne (fs : Fs) (p c q : String) (fs1 : Fs)
    (h : write_file_content fs p c = Except.ok fs1) (hq : q ≠ p) : fs1.files q = fs.files q := by
  unfold write_file_content at h
  split at h
  · cases h
    simp [hq]
  · cases h

/-- A successful write never changes which paths are writable. -/
theorem write_writable (fs : Fs) (p c : String) (fs1 : Fs)
    (h : write_file_content fs p c = Except.ok fs1) : fs1.writable = fs.writable := by
  unfold write_file_content at h
  split at h
  · cases h
    rfl
  · cases h

/-- On writable storage a write always succeeds. -/
theorem write_ok_of_writable (fs : Fs) (p c : String) (hw : fs.writable p = true) :
    write_file_content fs p c =
      Except.ok { fs with files := fun q => if q = p then some c else fs.files q } := by
  unfold write_file_content
  rw [hw]
  rfl

/-- The current-list slot differs from the starter slot. -/
theorem path_ne_starter : LIST_PATH ≠ LIST_STARTER := by decide

/-- The current-list slot differs from the draft slot. -/
theorem path_ne_draft : LIST_PATH ≠ LIST_DRAFT := by decide

/-- Claim C1: when the single provider call succeeds with text T on
writable storage, create writes T to both the starter slot and the
current-list slot and returns T, and edit writes T to both the
draft-edit slot and the current-list slot and returns T. -/
theorem create_edit_persist (ag : Agent) (provider : Provider) (fs : Fs)
    (ui T exc lc : String)
    (hprov : ∀ m sp um, provider m sp um = Except.ok T)
    (hw : ∀ p, fs.writable p = true)
    (hex : fs.files DEFAULT_EXAMPLE_PATH = some exc)
    (hlist : fs.files LIST_PATH = some lc) :
    ((create_list ag provider fs ui none).1 = Except.ok T ∧
     ((create_list ag provider fs ui none).2.1).files LIST_STARTER = some T ∧
     ((create_list ag provider fs ui none).2.1).files LIST_PATH = some T) ∧
    ((edit_list ag provider fs ui none none).1 = Except.ok T ∧
     ((edit_list ag provider fs ui none none).2.1).files LIST_DRAFT = some T ∧
     ((edit_list ag provider fs ui none none).2.1).files LIST_PATH = some T) := by
  constructor
  · simp [create_list, resolve_example_path, truthy, read_file_content, write_file_content,
      hex, hprov, hw, starter_ne_path]
  · simp [edit_list, truthy, read_file_content, write_file_content,
      hlist, hprov, hw, draft_ne_path]

/-- Demo agent used by witness instantiations. -/
def agDemo : Agent :=
  { client := Client.openai "k", model := DEFAULT_MODEL,
    creator_prompt := "Create from: \x7b\x7bexample\x7d\x7d",
    editor_prompt := "Edit: \x7b\x7blistpath\x7d\x7d" }

/-- Demo filesystem with the prompt files, the default example and a
current list present, everything writable. -/
def fsDemo : Fs :=
  { files := fun p =>
      if p = LIST_CREATOR_PROMPT_PATH then some "Create from: \x7b\x7bexample\x7d\x7d"
      else if p = LIST_EDITOR_PROMPT_PATH then some "Edit: \x7b\x7blistpath\x7d\x7d"
      else if p = DEFAULT_EXAMPLE_PATH then some "# Awesome Android"
      else if p = LIST_PATH then some "# My List"
      else none,
    writable := fun _ => true }

/-- Empty read-only-free filesystem: no files, everything writable. -/
def fsEmpty : Fs := { files := fun _ => none, writable := fun _ => true }

/-- Demo provider that always succeeds with a fixed text. -/
def providerOkDemo : Provider := fun _ _ _ => Except.ok "# Output"

/-- Demo provider that always fails. -/
def providerErrDemo : Provider := fun _ _ _ => Except.error (Err.providerError "boom")

/-- Witness for C1 at concrete inputs. -/
theorem create_edit_persist_witness :
    ((create_list agDemo providerOkDemo fsDemo "ui" none).1 = Except.ok "# Output" ∧
     ((create_list agDemo providerOkDemo fsDemo "ui" none).2.1).files LIST_STARTER = some "# Output" ∧
     ((create_list agDemo providerOkDemo fsDemo "ui" none).2.1).files LIST_PATH = some "# Output") ∧
    ((edit_list agDemo providerOkDemo fsDemo "ui" none none).1 = Except.ok "# Output" ∧
     ((edit_list agDemo providerOkDemo fsDemo "ui" none none).2.1).files LIST_DRAFT = some "# Output" ∧
     ((edit_list agDemo providerOkDemo fsDemo "ui" none none).2.1).files LIST_PATH = some "# Output") :=
  create_edit_persist agDemo providerOkDemo fsDemo "ui" "# Output" "# Awesome Android" "# My List"
    (fun _ _ _ => rfl) (fun _ => rfl) (by decide) (by decide)

/-- Claim C2: with neither credential truthy, both workflows fail with
the configuration error, the filesystem is untouched and the provider
call count is zero. -/
theorem config_error_fail_fast (env : Env) (model : Option String) (provider : Provider)
    (fs : Fs) (ui : String) (exn : Option String)
    (h1 : truthy env.OPENROUTER_API_KEY = false)
    (h2 : truthy env.OPENAI_API_KEY = false) :
    run_create env model provider fs ui exn =
      (Except.error (Err.configurationError "No API key provided for OpenAI or OpenRouter"), fs, 0) ∧
    run_edit env model provider fs ui =
      (Except.error (Err.configurationError "No API key provided for OpenAI or OpenRouter"), fs, 0) := by
  constructor <;> simp [run_create, run_edit, Agent.mkInit, get_client, h1, h2]

/-- Witness for C2 at concrete inputs. -/
theorem config_error_fail_fast_witness :
    run_create { OPENROUTER_API_KEY := none, OPENAI_API_KEY := some "" } none providerOkDemo fsDemo "ui" none =
      (Except.error (Err.configurationError "No API key provided for OpenAI or OpenRouter"), fsDemo, 0) ∧
    run_edit { OPENROUTER_API_KEY := none, OPENAI_API_KEY := some "" } none providerOkDemo fsDemo "ui" =
      (Except.error (Err.configurationError "No API key provided for OpenAI or OpenRouter"), fsDemo, 0) :=
  config_error_fail_fast { OPENROUTER_API_KEY := none, OPENAI_API_KEY := some "" }
    none providerOkDemo fsDemo "ui" none rfl (by decide)

/-- Claim C4: reading a slot immediately after a successful write of X
to that slot returns exactly X. -/
theorem write_read_roundtrip (fs : Fs) (p X : String) (fs1 : Fs)
    (h : write_file_content fs p X = Except.ok fs1) :
    read_file_content fs1 p = Except.ok X := by
  unfold read_file_content
  rw [write_files_eq fs p X fs1 h]

/-- Witness for C4 at concrete inputs. -/
theorem write_read_roundtrip_witness :
    read_file_content
      { files := fun q => if q = LIST_STARTER then some "X" else none,
        writable := fun _ => true } LIST_STARTER = Except.ok "X" :=
  write_read_roundtrip fsEmpty LIST_STARTER "X" _ rfl

/-- Claim C5: a given example name with no matching document makes
create fail with a NotFoundError naming the example, writing nothing;
an absent current list makes edit fail with a NotFoundError, writing
nothing. Neither failure consults the provider. -/
theorem notfound_no_writes (ag : Agent) (provider : Provider) (fs : Fs) (ui name : String)
    (hname : name.isEmpty = false)
    (hmiss : fs.files (EXAMPLES_DIR ++ "/" ++ name ++ ".md") = none)
    (hlist : fs.files LIST_PATH = none) :
    create_list ag provider fs ui (some name) =
      (Except.error (Err.notFoundError ("Example \x27" ++ name ++ "\x27 not found")), fs, 0) ∧
    edit_list ag provider fs ui none none =
      (Except.error (Err.notFoundError LIST_PATH), fs, 0) := by
  constructor
  · simp [create_list, resolve_example_path, truthy, hname, hmiss]
  · simp [edit_list, read_file_content, truthy, hlist]

/-- Witness for C5 at concrete inputs. -/
theorem notfound_no_writes_witness :
    create_list agDemo providerOkDemo fsEmpty "ui" (some "no-such-example") =
      (Except.error (Err.notFoundError "Example \x27no-such-example\x27 not found"), fsEmpty, 0) ∧
    edit_list agDemo providerOkDemo fsEmpty "ui" none none =
      (Except.error (Err.notFoundError LIST_PATH), fsEmpty, 0) :=
  notfound_no_writes agDemo providerOkDemo fsEmpty "ui" "no-such-example" rfl rfl rfl

/-- Claim C6: when the provider call fails, the error is returned
unchanged, the provider was invoked exactly once, and no slot was
written, for create and for edit alike. -/
theorem provider_error_propagates (ag : Agent) (provider : Provider) (fs : Fs)
    (ui exc lc : String) (e : Err)
    (hprov : ∀ m sp um, provider m sp um = Except.error e)
    (hex : fs.files DEFAULT_EXAMPLE_PATH = some exc)
    (hlist : fs.files LIST_PATH = some lc) :
    create_list ag provider fs ui none = (Except.error e, fs, 1) ∧
    edit_list ag provider fs ui none none = (Except.error e, fs, 1) := by
  constructor
  · simp [create_list, resolve_example_path, truthy, read_file_content, hex, hprov]
  · simp [edit_list, read_file_content, truthy, hlist, hprov]

/-- Witness for C6 at concrete inputs. -/
theorem provider_error_propagates_witness :
    create_list agDemo providerErrDemo fsDemo "ui" none =
      (Except.error (Err.providerError "boom"), fsDemo, 1) ∧
    edit_list agDemo providerErrDemo fsDemo "ui" none none =
      (Except.error (Err.providerError "boom"), fsDemo, 1) :=
  provider_error_propagates agDemo providerErrDemo fsDemo "ui" "# Awesome Android" "# My List"
    (Err.providerError "boom") (fun _ _ _ => rfl) (by decide) (by decide)

/-- Claim C9: whenever the OpenRouter credential is truthy the
OpenRouter endpoint is chosen, whatever the OpenAI credential holds
(so in particular when both are present); the OpenAI endpoint is chosen
when the OpenRouter credential is falsy and the OpenAI credential
truthy, and only then: any selection of the OpenAI endpoint entails
that the OpenRouter credential was falsy and the OpenAI credential
truthy. -/
theorem provider_selection (env : Env) :
    (truthy env.OPENROUTER_API_KEY = true →
      get_client env = Except.ok (Client.openrouter (env.OPENROUTER_API_KEY.getD ""))) ∧
    (truthy env.OPENROUTER_API_KEY = false → truthy env.OPENAI_API_KEY = true →
      get_client env = Except.ok (Client.openai (env.OPENAI_API_KEY.getD ""))) ∧
    (∀ key, get_client env = Except.ok (Client.openai key) →
      truthy env.OPENROUTER_API_KEY = false ∧ truthy env.OPENAI_API_KEY = true) := by
  refine ⟨?_, ?_, ?_⟩
  · intro h1
    simp [get_client, h1]
  · intro h1 h2
    simp [get_client, h1, h2]
  · intro key h
    unfold get_client at h
    cases h1 : truthy env.OPENROUTER_API_KEY with
    | true =>
      rw [h1] at h
      simp at h
    | false =>
      rw [h1] at h
      cases h2 : truthy env.OPENAI_API_KEY with
      | true => exact ⟨rfl, rfl⟩
      | false =>
        rw [h2] at h
        simp at h

/-- Witness for C9 at concrete inputs, covering the quadrant where only
the OpenRouter key is truthy, the quadrant where both are truthy, and
the OpenAI selection with its only-when consequence. -/
theorem provider_selection_witness :
    get_client { OPENROUTER_API_KEY := some "rk", OPENAI_API_KEY := none } =
      Except.ok (Client.openrouter "rk") ∧
    get_client { OPENROUTER_API_KEY := some "rk", OPENAI_API_KEY := some "oak" } =
      Except.ok (Client.openrouter "rk") ∧
    get_client { OPENROUTER_API_KEY := none, OPENAI_API_KEY := some "oak" } =
      Except.ok (Client.openai "oak") ∧
    (truthy (none : Option String) = false ∧ truthy (some "oak" : Option String) = true) :=
  ⟨(provider_selection { OPENROUTER_API_KEY := some "rk", OPENAI_API_KEY := none }).1 (by decide),
   (provider_selection { OPENROUTER_API_KEY := some "rk", OPENAI_API_KEY := some "oak" }).1
     (by decide),
   (provider_selection { OPENROUTER_API_KEY := none, OPENAI_API_KEY := some "oak" }).2.1
     rfl (by decide),
   (provider_selection { OPENROUTER_API_KEY := none, OPENAI_API_KEY := some "oak" }).2.2
     "oak" rfl⟩

/-- Claim C10: the snapshot write precedes the current-list write, so
when the current-list slot is unwritable and the snapshot slot is
writable, the operation fails with an IOError while the snapshot slot
already holds the new text and the current-list slot keeps its prior
content, for create and for edit alike. -/
theorem snapshot_written_before_current (ag : Agent) (provider : Provider) (fs : Fs)
    (ui T exc lc : String)
    (hprov : ∀ m sp um, provider m sp um = Except.ok T)
    (hex : fs.files DEFAULT_EXAMPLE_PATH = some exc)
    (hlist : fs.files LIST_PATH = some lc)
    (hws : fs.writable LIST_STARTER = true)
    (hwd : fs.writable LIST_DRAFT = true)
    (hwl : fs.writable LIST_PATH = false) :
    ((create_list ag provider fs ui none).1 = Except.error (Err.ioError LIST_PATH) ∧
     ((create_list ag provider fs ui none).2.1).files LIST_STARTER = some T ∧
     ((create_list ag provider fs ui none).2.1).files LIST_PATH = fs.files LIST_PATH) ∧
    ((edit_list ag provider fs ui none none).1 = Except.error (Err.ioError LIST_PATH) ∧
     ((edit_list ag provider fs ui none none).2.1).files LIST_DRAFT = some T ∧
     ((edit_list ag provider fs ui none none).2.1).files LIST_PATH = fs.files LIST_PATH) := by
  constructor
  · simp [create_list, resolve_example_path, truthy, read_file_content, write_file_content,
      hex, hprov, hws, hwl, path_ne_starter]
  · simp [edit_list, truthy, read_file_content, write_file_content,
      hlist, hprov, hwd, hwl, path_ne_draft]

/-- Filesystem demo where only the current-list slot is unwritable. -/
def fsReadOnlyList : Fs :=
  { files := fsDemo.files, writable := fun p => !(p == LIST_PATH) }

/-- Witness for C10 at concrete inputs. -/
theorem snapshot_written_before_current_witness :
    ((create_list agDemo providerOkDemo fsReadOnlyList "ui" none).1 =
        Except.error (Err.ioError LIST_PATH) ∧
     ((create_list agDemo providerOkDemo fsReadOnlyList "ui" none).2.1).files LIST_STARTER =
        some "# Output" ∧
     ((create_list agDemo providerOkDemo fsReadOnlyList "ui" none).2.1).files LIST_PATH =
        fsReadOnlyList.files LIST_PATH) ∧
    ((edit_list agDemo providerOkDemo fsReadOnlyList "ui" none none).1 =
        Except.error (Err.ioError LIST_PATH) ∧
     ((edit_list agDemo providerOkDemo fsReadOnlyList "ui" none none).2.1).files LIST_DRAFT =
        some "# Output" ∧
     ((edit_list agDemo providerOkDemo fsReadOnlyList "ui" none none).2.1).files LIST_PATH =
        fsReadOnlyList.files LIST_PATH) :=
  snapshot_written_before_current agDemo providerOkDemo fsReadOnlyList "ui" "# Output"
    "# Awesome Android" "# My List" (fun _ _ _ => rfl) (by decide) (by decide)
    (by decide) (by decide) (by decide)

/-- Modelled from the spec: the creator template file under
development/the-crew/system-prompts is not among the given sources; the
spec describes a Template as raw text containing one placeholder token,
here the example placeholder preceded by a header line. -/
def specCreatorTemplate : String := "Example:\n\x7b\x7bexample\x7d\x7d"

/-- Claim C3 counterexample: with a creator template holding one example
placeholder, example content that is itself the placeholder token leaves
a literal token in the built creation prompt, refuting the universally
quantified no-token-remaining clause. -/
theorem creation_prompt_token_remains :
    strContains (buildCreationPrompt specCreatorTemplate exampleTok) exampleTok = true := by
  decide

/-- Claim C3 (amended): a creation prompt built from a template whose
example placeholder occurs exactly once is the template with that one
occurrence replaced by the example text, hence contains the example
text verbatim, and likewise the edit prompt contains the current-list
text verbatim; the original placeholder occurrence never survives,
though the substituted content can reintroduce the token. -/
theorem prompt_substitution_exact (creatorTemplate editorTemplate ex cur : String)
    (pre1 post1 pre2 post2 : List Char)
    (ht1 : creatorTemplate.data = pre1 ++ exampleTok.data ++ post1)
    (h1 : ∀ i, i < pre1.length →
      exampleTok.data.isPrefixOf ((pre1 ++ exampleTok.data ++ post1).drop i) = false)
    (hp1 : containsSub exampleTok.data post1 = false)
    (ht2 : editorTemplate.data = pre2 ++ listTok.data ++ post2)
    (h2 : ∀ i, i < pre2.length →
      listTok.data.isPrefixOf ((pre2 ++ listTok.data ++ post2).drop i) = false)
    (hp2 : containsSub listTok.data post2 = false) :
    ((buildCreationPrompt creatorTemplate ex).data = pre1 ++ ex.data ++ post1 ∧
     ex.data <:+: (buildCreationPrompt creatorTemplate ex).data) ∧
    ((buildEditPrompt editorTemplate cur).data = pre2 ++ cur.data ++ post2 ∧
     cur.data <:+: (buildEditPrompt editorTemplate cur).data) := by
  have e1 : (buildCreationPrompt creatorTemplate ex).data = pre1 ++ ex.data ++ post1 := by
    show replaceList exampleTok.data ex.data creatorTemplate.data = _
    rw [ht1]
    exact replaceList_unique exampleTok.data ex.data (by decide) pre1 post1 h1 hp1
  have e2 : (buildEditPrompt editorTemplate cur).data = pre2 ++ cur.data ++ post2 := by
    show replaceList listTok.data cur.data editorTemplate.data = _
    rw [ht2]
    exact replaceList_unique listTok.data cur.data (by decide) pre2 post2 h2 hp2
  refine ⟨⟨e1, ?_⟩, ⟨e2, ?_⟩⟩
  · rw [e1]
    exact ⟨pre1, post1, rfl⟩
  · rw [e2]
    exact ⟨pre2, post2, rfl⟩

/-- Witness for the amended C3 at concrete inputs. -/
theorem prompt_substitution_exact_witness :
    ((buildCreationPrompt "Use:\n\x7b\x7bexample\x7d\x7d\nEnd" "# Awesome X").data =
        "Use:\n".data ++ "# Awesome X".data ++ "\nEnd".data ∧
     "# Awesome X".data <:+: (buildCreationPrompt "Use:\n\x7b\x7bexample\x7d\x7d\nEnd" "# Awesome X").data) ∧
    ((buildEditPrompt "List:\n\x7b\x7blistpath\x7d\x7d" "# Cur").data =
        "List:\n".data ++ "# Cur".data ++ "".data ∧
     "# Cur".data <:+: (buildEditPrompt "List:\n\x7b\x7blistpath\x7d\x7d" "# Cur").data) :=
  prompt_substitution_exact "Use:\n\x7b\x7bexample\x7d\x7d\nEnd" "List:\n\x7b\x7blistpath\x7d\x7d"
    "# Awesome X" "# Cur" "Use:\n".data "\nEnd".data "List:\n".data "".data
    (by decide) (by decide) (by decide) (by decide) (by decide) (by decide)

/-- Two adjacent example placeholders, for the substitution counterexample. -/
def doubleTok : String := exampleTok ++ exampleTok

/-- Claim C7 counterexample: on a template holding the placeholder
twice, the substitution of agent.py replaces both occurrences, so the
result differs from both possible exactly-one-occurrence replacements. -/
theorem substitution_replaces_both :
    pyReplace doubleTok exampleTok "A" = "AA" ∧
    pyReplace doubleTok exampleTok "A" ≠ "A" ++ exampleTok ∧
    pyReplace doubleTok exampleTok "A" ≠ exampleTok ++ "A" := by
  refine ⟨by decide, by decide, by decide⟩

/-- Claim C7 (amended): placeholder substitution replaces every
non-overlapping occurrence left to right; when the template contains
exactly one occurrence, exactly that occurrence is replaced, and when
the placeholder is absent, substitution returns the template unchanged
rather than an error. -/
theorem placeholder_substitution (tok t rep : String)
    (htok : tok.data.isEmpty = false) :
    (strContains t tok = false → pyReplace t tok rep = t) ∧
    (∀ pre post, t.data = pre ++ tok.data ++ post →
      (∀ i, i < pre.length → tok.data.isPrefixOf ((pre ++ tok.data ++ post).drop i) = false) →
      containsSub tok.data post = false →
      (pyReplace t tok rep).data = pre ++ rep.data ++ post) := by
  constructor
  · intro h
    show String.mk (replaceList tok.data rep.data t.data) = t
    rw [replaceList_of_not_contains tok.data rep.data t.data h]
  · intro pre post ht hpre hpost
    show replaceList tok.data rep.data t.data = _
    rw [ht]
    exact replaceList_unique tok.data rep.data htok pre post hpre hpost

/-- Witness for the amended C7 at concrete inputs. -/
theorem placeholder_substitution_witness :
    pyReplace "plain text" exampleTok "B" = "plain text" ∧
    (pyReplace "A \x7b\x7bexample\x7d\x7d B" exampleTok "X").data =
      "A ".data ++ "X".data ++ " B".data :=
  ⟨(placeholder_substitution exampleTok "plain text" "B" (by decide)).1 (by decide),
   (placeholder_substitution exampleTok "A \x7b\x7bexample\x7d\x7d B" "X" (by decide)).2
     "A ".data " B".data (by decide) (by decide) (by decide)⟩

/-- A provider that always answers the same result, used to attach a
fixed provider answer to each operation in a trace. -/
def constProvider (resp : Except Err String) : Provider := fun _ _ _ => resp

/-- One workflow operation together with the provider answer it will
receive; edits run at the default list and draft paths, as every caller
in the repository does. -/
inductive Op where
  | createOp (ui : String) (example_name : Option String) (resp : Except Err String)
  | editOp (ui : String) (resp : Except Err String)

/-- The filesystem after one operation. -/
def stepOp (ag : Agent) (fs : Fs) : Op → Fs
  | Op.createOp ui exn resp => (create_list ag (constProvider resp) fs ui exn).2.1
  | Op.editOp ui resp => (edit_list ag (constProvider resp) fs ui none none).2.1

/-- The value one operation returns to its caller. -/
def opResult (ag : Agent) (fs : Fs) : Op → Except Err String
  | Op.createOp ui exn resp => (create_list ag (constProvider resp) fs ui exn).1
  | Op.editOp ui resp => (edit_list ag (constProvider resp) fs ui none none).1

/-- The filesystem after a sequence of operations. -/
def runOps (ag : Agent) : Fs → List Op → Fs
  | fs, [] => fs
  | fs, op :: rest => runOps ag (stepOp ag fs op) rest

/-- The text returned by the most recent successful create of the
sequence, falling back to the accumulator when there is none. -/
def lastCreateText (ag : Agent) : Fs → List Op → Option String → Option String
  | _, [], acc => acc
  | fs, op :: rest, acc =>
    lastCreateText ag (stepOp ag fs op) rest
      (match op with
       | Op.createOp _ _ _ =>
         (match opResult ag fs op with
          | Except.ok t => some t
          | Except.error _ => acc)
       | Op.editOp _ _ => acc)

/-- The text returned by the most recent successful edit of the
sequence, falling back to the accumulator when there is none. -/
def lastEditText (ag : Agent) : Fs → List Op → Option String → Option String
  | _, [], acc => acc
  | fs, op :: rest, acc =>
    lastEditText ag (stepOp ag fs op) rest
      (match op with
       | Op.editOp _ _ =>
         (match opResult ag fs op with
          | Except.ok t => some t
          | Except.error _ => acc)
       | Op.createOp _ _ _ => acc)

/-- create never changes which paths are writable. -/
theorem create_list_writable (ag : Agent) (provider : Provider) (fs : Fs)
    (ui : String) (exn : Option String) :
    ((create_list ag provider fs ui exn).2.1).writable = fs.writable := by
  unfold create_list
  split
  · rfl
  · split
    · rfl
    · split
      · rfl
      · split
        · rfl
        · rename_i fs1 h1
          split
          · exact write_writable _ _ _ _ h1
          · rename_i fs2 h2
            rw [write_writable _ _ _ _ h2, write_writable _ _ _ _ h1]

/-- edit at the default paths never changes which paths are writable. -/
theorem edit_list_writable (ag : Agent) (provider : Provider) (fs : Fs) (ui : String) :
    ((edit_list ag provider fs ui none none).2.1).writable = fs.writable := by
  unfold edit_list
  split
  · rfl
  · split
    · rfl
    · split
      · rfl
      · rename_i fs1 h1
        split
        · exact write_writable _ _ _ _ h1
        · rename_i fs2 h2
          rw [write_writable _ _ _ _ h2, write_writable _ _ _ _ h1]

/-- create never touches the draft-edit slot. -/
theorem create_list_draft_frame (ag : Agent) (provider : Provider) (fs : Fs)
    (ui : String) (exn : Option String) :
    ((create_list ag provider fs ui exn).2.1).files LIST_DRAFT = fs.files LIST_DRAFT := by
  unfold create_list
  split
  · rfl
  · split
    · rfl
    · split
      · rfl
      · split
        · rfl
        · rename_i fs1 h1
          have e1 : fs1.files LIST_DRAFT = fs.files LIST_DRAFT :=
            write_files_ne _ _ _ _ _ h1 draft_ne_starter
          split
          · exact e1
          · rename_i fs2 h2
            rw [write_files_ne _ _ _ _ _ h2 draft_ne_path, e1]

/-- edit at the default paths never touches the starter slot. -/
theorem edit_list_starter_frame (ag : Agent) (provider : Provider) (fs : Fs) (ui : String) :
    ((edit_list ag provider fs ui none none).2.1).files LIST_STARTER = fs.files LIST_STARTER := by
  unfold edit_list
  split
  · rfl
  · split
    · rfl
    · split
      · rfl
      · rename_i fs1 h1
        have e1 : fs1.files LIST_STARTER = fs.files LIST_STARTER :=
          write_files_ne _ _ _ _ _ h1 starter_ne_draft
        split
        · exact e1
        · rename_i fs2 h2
          rw [write_files_ne _ _ _ _ _ h2 starter_ne_path, e1]

/-- On writable storage the starter slot after create holds exactly the
returned text on success and is untouched on failure. -/
theorem create_list_starter_content (ag : Agent) (provider : Provider) (fs : Fs)
    (ui : String) (exn : Option String) (hw : ∀ p, fs.writable p = true) :
    ((create_list ag provider fs ui exn).2.1).files LIST_STARTER =
      (match (create_list ag provider fs ui exn).1 with
       | Except.ok t => some t
       | Except.error _ => fs.files LIST_STARTER) := by
  unfold create_list
  split
  · rfl
  · split
    · rfl
    · split
      · rfl
      · split
        · rename_i e h1
          simp [write_file_content, hw] at h1
        · rename_i fs1 h1
          have hw1 : fs1.writable LIST_PATH = true := by
            rw [write_writable _ _ _ _ h1]
            exact hw LIST_PATH
          split
          · rename_i e h2
            simp [write_file_content, hw1] at h2
          · rename_i fs2 h2
            show fs2.files LIST_STARTER = _
            rw [write_files_ne _ _ _ _ _ h2 starter_ne_path, write_files_eq _ _ _ _ h1]

/-- On writable storage the draft-edit slot after edit holds exactly the
returned text on success and is untouched on failure. -/
theorem edit_list_draft_content (ag : Agent) (provider : Provider) (fs : Fs)
    (ui : String) (hw : ∀ p, fs.writable p = true) :
    ((edit_list ag provider fs ui none none).2.1).files LIST_DRAFT =
      (match (edit_list ag provider fs ui none none).1 with
       | Except.ok t => some t
       | Except.error _ => fs.files LIST_DRAFT) := by
  unfold edit_list
  split
  · rfl
  · split
    · rfl
    · split
      · rename_i e h1
        simp [write_file_content, hw] at h1
      · rename_i fs1 h1
        have hw1 : fs1.writable LIST_PATH = true := by
          rw [write_writable _ _ _ _ h1]
          exact hw LIST_PATH
        split
        · rename_i e h2
          simp [write_file_content, hw1] at h2
        · rename_i fs2 h2
          show fs2.files LIST_DRAFT = _
          rw [write_files_ne _ _ _ _ _ h2 draft_ne_path]
          exact write_files_eq _ _ _ _ h1

/-- Writability is stable across one operation. -/
theorem stepOp_writable (ag : Agent) (fs : Fs) (op : Op) :
    (stepOp ag fs op).writable = fs.writable := by
  cases op with
  | createOp ui exn resp => exact create_list_writable ag (constProvider resp) fs ui exn
  | editOp ui resp => exact edit_list_writable ag (constProvider resp) fs ui

/-- Claim C8: across any sequence of create and edit operations on
writable storage, the starter slot holds the text returned by the most
recent successful create (its initial content when there is none) and
the draft-edit slot holds the text returned by the most recent
successful edit, so each snapshot slot is written only by operations of
its own kind. -/
theorem snapshot_slots (ag : Agent) (ops : List Op) :
    ∀ (fs : Fs), (∀ p, fs.writable p = true) →
      (runOps ag fs ops).files LIST_STARTER = lastCreateText ag fs ops (fs.files LIST_STARTER) ∧
      (runOps ag fs ops).files LIST_DRAFT = lastEditText ag fs ops (fs.files LIST_DRAFT) := by
  induction ops with
  | nil =>
    intro fs _
    exact ⟨rfl, rfl⟩
  | cons op rest ih =>
    intro fs hw
    have hw1 : ∀ p, (stepOp ag fs op).writable p = true := fun p => by
      rw [stepOp_writable]
      exact hw p
    obtain ⟨ihs, ihd⟩ := ih (stepOp ag fs op) hw1
    cases op with
    | createOp ui exn resp =>
      constructor
      · simp only [runOps, lastCreateText]
        rw [ihs]
        congr 1
        exact create_list_starter_content ag (constProvider resp) fs ui exn hw
      · simp only [runOps, lastEditText]
        rw [ihd]
        congr 1
        exact create_list_draft_frame ag (constProvider resp) fs ui exn
    | editOp ui resp =>
      constructor
      · simp only [runOps, lastCreateText]
        rw [ihs]
        congr 1
        exact edit_list_starter_frame ag (constProvider resp) fs ui
      · simp only [runOps, lastEditText]
        rw [ihd]
        congr 1
        exact edit_list_draft_content ag (constProvider resp) fs ui hw

/-- Witness for C8 at concrete inputs: a create followed by an edit. -/
theorem snapshot_slots_witness :
    (runOps agDemo fsDemo
      [Op.createOp "u1" none (Except.ok "# A"), Op.editOp "u2" (Except.ok "# B")]).files
        LIST_STARTER = some "# A" ∧
    (runOps agDemo fsDemo
      [Op.createOp "u1" none (Except.ok "# A"), Op.editOp "u2" (Except.ok "# B")]).files
        LIST_DRAFT = some "# B" := by
  have h := snapshot_slots agDemo
    [Op.createOp "u1" none (Except.ok "# A"), Op.editOp "u2" (Except.ok "# B")]
    fsDemo (fun _ => rfl)
  exact ⟨h.1.trans (by decide), h.2.trans (by decide)⟩

end LazyAwesome
